import Mathlib

/-!
Shallow embedding of the aiorobinhood client (aiorobinhood/client.py,
decorators.py, urls.py, exceptions.py) for checking the specification's
claims about the authentication/session lifecycle and the pagination
helper.

Network I/O is modelled by passing the server's responses explicitly:
an operation that issues one HTTP request takes the response as an
`HResp` argument; the pagination loop takes the list of responses that
successive requests would receive; `login`, which can recurse, takes a
stream `Nat → HResp` and an index.  Every operation returns, besides its
outcome and the updated client state, the list of URLs it actually
requested, so "no network I/O" is the statement that this trace is `[]`.

JSON bodies are modelled by the inductive `JVal`; an uncaught Python
exception (`KeyError`/`TypeError` escaping the client's own handlers) is
the outcome `ClientErr.pyErr`.
-/

namespace Aiorobinhood

/-- JSON values, as produced by `resp.json()`. -/
inductive JVal where
  | jnull : JVal
  | jbool : Bool → JVal
  | jnum : Int → JVal
  | jstr : String → JVal
  | jarr : List JVal → JVal
  | jobj : List (String × JVal) → JVal

/-- Key lookup in an association list of JSON object fields. -/
def jfind : List (String × JVal) → String → Option JVal
  | [], _ => none
  | (k, v) :: rest, key => if k = key then some v else jfind rest key

/-- `body["key"]` / `"key" in body` : field lookup on a JSON object
(non-objects have no fields). -/
def JVal.lookup : JVal → String → Option JVal
  | .jobj fields, key => jfind fields key
  | _, _ => none

/-- Python `str()` conversion as used by f-string interpolation
(`f"Bearer {...}"`); only the string case is ever exercised by the
claims. -/
def JVal.pyStr : JVal → String
  | .jstr s => s
  | .jnum n => toString n
  | .jbool true => "True"
  | .jbool false => "False"
  | .jnull => "None"
  | .jarr _ => "[...]"
  | .jobj _ => "..."

/-- Python truthiness of a JSON value (`response.get("mfa_required")`
used as a condition). -/
def JVal.truthy : JVal → Bool
  | .jnull => false
  | .jbool b => b
  | .jnum n => n ≠ 0
  | .jstr s => s ≠ ""
  | .jarr l => ¬ l.isEmpty
  | .jobj l => ¬ l.isEmpty

/-! ## URLs (aiorobinhood/urls.py) -/

/-- The fixed API origin (`urls.BASE`). -/
def BASE : String := "https://api.robinhood.com"

/-- `yarl` path join (`url / segment`): appends one path segment,
avoiding a doubled slash. -/
def urlJoin (u s : String) : String :=
  (if u.data.getLast? = some '/' then u else u ++ "/") ++ s

/-- Whether a URL lies under the fixed API origin. -/
def isApiUrl (u : String) : Bool := BASE.data.isPrefixOf u.data

/-- `url.with_query(...)`: appends a query string. -/
def withQuery (u q : String) : String := u ++ "?" ++ q

def OAUTH : String := urlJoin BASE "oauth2/"
def LOGIN : String := urlJoin OAUTH "token/"
def LOGOUT : String := urlJoin OAUTH "revoke_token/"
def CHALLENGE : String := urlJoin BASE "challenge/"
def ACCOUNTS : String := urlJoin BASE "accounts/"
def PORTFOLIOS : String := urlJoin BASE "portfolios/"
def POSITIONS : String := urlJoin BASE "positions/"
def WATCHLISTS : String := urlJoin BASE "watchlists/"
def FUNDAMENTALS : String := urlJoin BASE "fundamentals/"
def INSTRUMENTS : String := urlJoin BASE "instruments/"
def POPULARITY : String := urlJoin INSTRUMENTS "popularity/"
def QUOTES : String := urlJoin BASE "quotes/"
def HISTORICALS : String := urlJoin QUOTES "historicals/"
def MIDLANDS : String := urlJoin BASE "midlands/"
def RATINGS : String := urlJoin MIDLANDS "ratings/"
def TAGS : String := urlJoin MIDLANDS "tags/"
def ORDERS : String := urlJoin BASE "orders/"

/-! ## Errors (aiorobinhood/exceptions.py) and transport model -/

/-- Outcomes an operation can raise.  `pyErr` stands for an uncaught
Python exception (e.g. a `KeyError` on a missing JSON field) escaping
the client's own `except` clauses; `valueError` is the `ValueError`
raised by the `mutually_exclusive` decorator. -/
inductive ClientErr where
  | uninitialized : ClientErr
  | unauthenticated : ClientErr
  | requestError (method url : String) : ClientErr
  | apiError (method url : String) (status : Nat) (body : JVal) : ClientErr
  | valueError : ClientErr
  | pyErr : ClientErr

/-- One HTTP exchange as seen by the client: either it completed with a
status and parsed JSON body, or the transport faulted
(`aiohttp.ClientError` / `asyncio.TimeoutError`). -/
inductive HResp where
  | ok (status : Nat) (body : JVal) : HResp
  | fault : HResp

/-! ## Client and session-file state -/

/-- The mutable fields of `RobinhoodClient`.  `sessionOpen` models
`self._session is not None`; the access token is stored as the string
the client builds, the refresh token is stored verbatim as the JSON
value the server sent. -/
structure ClientState where
  sessionOpen : Bool
  accessToken : Option String
  refreshToken : Option JVal
  accountUrl : Option JVal
  accountNum : Option JVal
  deviceToken : String

/-- Contents of the pickle session file: the device token written at
construction, and the token fields written by `dump` (`none` = key
absent). -/
structure SessionFile where
  deviceToken : String
  accessToken : Option String
  refreshToken : Option JVal

/-- Client state right after `__init__`: no tokens, no account info, no
open session. -/
def initState (device : String) : ClientState :=
  ⟨false, none, none, none, none, device⟩

/-- Constructor file handling: load the device token from the session
file, or generate a fresh one and write it. -/
def construct (file : Option SessionFile) (freshToken : String) :
    ClientState × SessionFile :=
  match file with
  | some f => (initState f.deviceToken, f)
  | none => (initState freshToken, ⟨freshToken, none, none⟩)

/-- The both-or-none token invariant from the data model. -/
def invB (st : ClientState) : Bool :=
  st.accessToken.isNone == st.refreshToken.isNone

/-- The same invariant for the stored session file. -/
def fileInvB (f : SessionFile) : Bool :=
  f.accessToken.isNone == f.refreshToken.isNone

/-- `check_tokens`: true when `self._access_token is None or
self._refresh_token is None`. -/
def tokensMissing (st : ClientState) : Bool :=
  st.accessToken.isNone || st.refreshToken.isNone

/-! ## Simple authorized operations -/

/-- `get_account`: `@check_tokens` then `@check_session`, one GET to
`urls.ACCOUNTS`, on 200 returns `response["results"][0]`. -/
def getAccount (st : ClientState) (resp : HResp) :
    Except ClientErr JVal × ClientState × List String :=
  if tokensMissing st then (.error .unauthenticated, st, [])
  else if ¬ st.sessionOpen then (.error .uninitialized, st, [])
  else
    match resp with
    | .fault => (.error (.requestError "GET" ACCOUNTS), st, [ACCOUNTS])
    | .ok status body =>
      if status ≠ 200 then (.error (.apiError "GET" ACCOUNTS status body), st, [ACCOUNTS])
      else
        match body.lookup "results" with
        | some (.jarr (a :: _)) => (.ok a, st, [ACCOUNTS])
        | _ => (.error .pyErr, st, [ACCOUNTS])

/-- `logout`: `@check_tokens` then `@check_session`; POST to
`urls.LOGOUT`; on 200 clears both tokens, otherwise raises leaving the
state untouched. -/
def logout (st : ClientState) (resp : HResp) :
    Except ClientErr Unit × ClientState × List String :=
  if tokensMissing st then (.error .unauthenticated, st, [])
  else if ¬ st.sessionOpen then (.error .uninitialized, st, [])
  else
    match resp with
    | .fault => (.error (.requestError "POST" LOGOUT), st, [LOGOUT])
    | .ok status body =>
      if status ≠ 200 then (.error (.apiError "POST" LOGOUT status body), st, [LOGOUT])
      else (.ok (), { st with accessToken := none, refreshToken := none }, [LOGOUT])

/-- `refresh`: `@check_tokens` then `@check_session`; POST to
`urls.LOGIN` with `grant_type=refresh_token`; on 200 stores
`Bearer <access_token>` and the refresh token (the access token is
assigned first, so a missing `refresh_token` key leaves the new access
token in place when the `KeyError` escapes). -/
def refresh (st : ClientState) (resp : HResp) :
    Except ClientErr Unit × ClientState × List String :=
  if tokensMissing st then (.error .unauthenticated, st, [])
  else if ¬ st.sessionOpen then (.error .uninitialized, st, [])
  else
    match resp with
    | .fault => (.error (.requestError "POST" LOGIN), st, [LOGIN])
    | .ok status body =>
      if status ≠ 200 then (.error (.apiError "POST" LOGIN status body), st, [LOGIN])
      else
        match body.lookup "access_token" with
        | none => (.error .pyErr, st, [LOGIN])
        | some a =>
          let st1 := { st with accessToken := some ("Bearer " ++ a.pyStr) }
          match body.lookup "refresh_token" with
          | none => (.error .pyErr, st1, [LOGIN])
          | some r => (.ok (), { st1 with refreshToken := some r }, [LOGIN])

/-- `dump`: `@check_tokens` only; rewrites the token fields of the
session file, keeping every other field (the device token). -/
def dump (st : ClientState) (f : SessionFile) :
    Except ClientErr Unit × ClientState × SessionFile :=
  if tokensMissing st then (.error .unauthenticated, st, f)
  else
    (.ok (), st,
      { f with accessToken := st.accessToken, refreshToken := st.refreshToken })

/-- `load`: undecorated; sets both tokens from the session file
(`data.get`, absent keys give `None`), then performs one `get_account`
and stores `account["url"]` / `account["account_number"]`. -/
def load (st : ClientState) (f : SessionFile) (resp : HResp) :
    Except ClientErr Unit × ClientState × List String :=
  let st1 := { st with accessToken := f.accessToken, refreshToken := f.refreshToken }
  match getAccount st1 resp with
  | (.error e, st2, tr) => (.error e, st2, tr)
  | (.ok acct, st2, tr) =>
    match acct.lookup "url" with
    | none => (.error .pyErr, st2, tr)
    | some u =>
      let st3 := { st2 with accountUrl := some u }
      match acct.lookup "account_number" with
      | none => (.error .pyErr, st3, tr)
      | some num => (.ok (), { st3 with accountNum := some num }, tr)

/-! ## Pagination cursor (the `while url is not None and (pages is None
or pages > 0)` loop shared by the list endpoints) -/

/-- `pages = pages and pages - 1`: `None` stays `None`, a positive page
budget is decremented. -/
def decBudget : Option Nat → Option Nat
  | none => none
  | some n => some (n - 1)

/-- The pagination loop.  One server response is consumed per request;
an exhausted response list behaves like a transport fault.  `strictNext`
distinguishes `response["next"]` (get_positions, get_watchlist,
get_instruments, get_popularity: a missing key is an uncaught
`KeyError`) from `response.get("next")` (get_ratings, get_orders);
`selfDefault` models get_orders' `response.get("results", [response])`.
A `next` value that is neither a string nor `null` makes the next
request fail at the Python level, folded into `pyErr`. -/
def pageLoop (strictNext selfDefault : Bool) :
    Option String → Option Nat → List HResp →
    Except ClientErr (List JVal) × List String
  | none, _, _ => (.ok [], [])
  | some _, some 0, _ => (.ok [], [])
  | some u, _, [] => (.error (.requestError "GET" u), [u])
  | some u, budget, r :: rest =>
    match r with
    | .fault => (.error (.requestError "GET" u), [u])
    | .ok status body =>
      if status ≠ 200 then (.error (.apiError "GET" u status body), [u])
      else
        match body.lookup "results" with
        | some (.jarr l) =>
          (match body.lookup "next" with
           | some (.jstr s) =>
             (match pageLoop strictNext selfDefault (some s) (decBudget budget) rest with
              | (.ok tail, tr) => (.ok (l ++ tail), u :: tr)
              | (.error e, tr) => (.error e, u :: tr))
           | some .jnull =>
             (match pageLoop strictNext selfDefault none (decBudget budget) rest with
              | (.ok tail, tr) => (.ok (l ++ tail), u :: tr)
              | (.error e, tr) => (.error e, u :: tr))
           | some _ => (.error .pyErr, [u])
           | none =>
             if strictNext then (.error .pyErr, [u])
             else
               (match pageLoop strictNext selfDefault none (decBudget budget) rest with
                | (.ok tail, tr) => (.ok (l ++ tail), u :: tr)
                | (.error e, tr) => (.error e, u :: tr)))
        | some _ => (.error .pyErr, [u])
        | none =>
          if selfDefault then
            (match body.lookup "next" with
             | some (.jstr s) =>
               (match pageLoop strictNext selfDefault (some s) (decBudget budget) rest with
                | (.ok tail, tr) => (.ok ([body] ++ tail), u :: tr)
                | (.error e, tr) => (.error e, u :: tr))
             | some .jnull =>
               (match pageLoop strictNext selfDefault none (decBudget budget) rest with
                | (.ok tail, tr) => (.ok ([body] ++ tail), u :: tr)
                | (.error e, tr) => (.error e, u :: tr))
             | some _ => (.error .pyErr, [u])
             | none =>
               (match pageLoop strictNext selfDefault none (decBudget budget) rest with
                | (.ok tail, tr) => (.ok ([body] ++ tail), u :: tr)
                | (.error e, tr) => (.error e, u :: tr)))
          else (.error .pyErr, [u])

/-! ## List endpoints -/

/-- `get_positions`: `@check_tokens` then `@check_session`; seed
`urls.POSITIONS?nonzero=...`, strict `next` access. -/
def getPositions (st : ClientState) (nonzero : Bool) (pages : Option Nat)
    (resps : List HResp) :
    Except ClientErr (List JVal) × ClientState × List String :=
  if tokensMissing st then (.error .unauthenticated, st, [])
  else if ¬ st.sessionOpen then (.error .uninitialized, st, [])
  else
    let url := withQuery POSITIONS ("nonzero=" ++ (if nonzero then "true" else "false"))
    let r := pageLoop true false (some url) pages resps
    (r.1, st, r.2)

/-- `get_watchlist`: same loop as `get_positions`, but the accumulated
results are post-processed into `[result["instrument"] for result in
results]`. -/
def getWatchlist (st : ClientState) (watchlist : String) (pages : Option Nat)
    (resps : List HResp) :
    Except ClientErr (List JVal) × ClientState × List String :=
  if tokensMissing st then (.error .unauthenticated, st, [])
  else if ¬ st.sessionOpen then (.error .uninitialized, st, [])
  else
    let url := urlJoin WATCHLISTS (watchlist ++ "/")
    match pageLoop true false (some url) pages resps with
    | (.error e, tr) => (.error e, st, tr)
    | (.ok l, tr) =>
      match l.mapM (fun r => r.lookup "instrument") with
      | some instrs => (.ok instrs, st, tr)
      | none => (.error .pyErr, st, tr)

/-- `get_instruments`: `@mutually_exclusive("symbol", "ids")` runs
before `@check_tokens` before `@check_session`; then the same loop.
`symbol`/`ids` model which keyword arguments were passed. -/
def getInstruments (st : ClientState) (symbol : Option String)
    (ids : Option (List String)) (pages : Option Nat) (resps : List HResp) :
    Except ClientErr (List JVal) × ClientState × List String :=
  if ¬ (symbol.isSome ^^ ids.isSome) then (.error .valueError, st, [])
  else if tokensMissing st then (.error .unauthenticated, st, [])
  else if ¬ st.sessionOpen then (.error .uninitialized, st, [])
  else
    let url :=
      match symbol with
      | some s => withQuery INSTRUMENTS ("symbol=" ++ s)
      | none => withQuery INSTRUMENTS ("ids=" ++ String.intercalate "," (ids.getD []))
    let r := pageLoop true false (some url) pages resps
    (r.1, st, r.2)

/-- `get_popularity`: strict `next` access, seed
`urls.POPULARITY?ids=...`. -/
def getPopularity (st : ClientState) (ids : List String) (pages : Option Nat)
    (resps : List HResp) :
    Except ClientErr (List JVal) × ClientState × List String :=
  if tokensMissing st then (.error .unauthenticated, st, [])
  else if ¬ st.sessionOpen then (.error .uninitialized, st, [])
  else
    let url := withQuery POPULARITY ("ids=" ++ String.intercalate "," ids)
    let r := pageLoop true false (some url) pages resps
    (r.1, st, r.2)

/-- `get_ratings`: uses `response.get("next")`. -/
def getRatings (st : ClientState) (ids : List String) (pages : Option Nat)
    (resps : List HResp) :
    Except ClientErr (List JVal) × ClientState × List String :=
  if tokensMissing st then (.error .unauthenticated, st, [])
  else if ¬ st.sessionOpen then (.error .uninitialized, st, [])
  else
    let url := withQuery RATINGS ("ids=" ++ String.intercalate "," ids)
    let r := pageLoop false false (some url) pages resps
    (r.1, st, r.2)

/-- `get_orders`: uses `response.get("results", [response])` and
`response.get("next")`. -/
def getOrders (st : ClientState) (orderId : Option String) (pages : Option Nat)
    (resps : List HResp) :
    Except ClientErr (List JVal) × ClientState × List String :=
  if tokensMissing st then (.error .unauthenticated, st, [])
  else if ¬ st.sessionOpen then (.error .uninitialized, st, [])
  else
    let url := match orderId with
      | none => ORDERS
      | some oid => urlJoin ORDERS (oid ++ "/")
    let r := pageLoop false true (some url) pages resps
    (r.1, st, r.2)

/-! ## Login (the challenge/MFA state machine) -/

/-- `response["challenge"]["remaining_attempts"]`, when it is a JSON
number. -/
def remOf (body : JVal) : Option Int :=
  match body.lookup "challenge" with
  | some c =>
    match c.lookup "remaining_attempts" with
    | some (.jnum n) => some n
    | _ => none
  | none => none

/-- The `while "challenge" in response and
response["challenge"]["remaining_attempts"] > 0` loop inside `login`.
Arguments: response stream, fuel, index of the next respond-call's
response, status/URL of the last completed request, current parsed body,
trace so far.  Returns `none` when the fuel runs out (the loop itself
has no iteration cap), otherwise the loop's exit: either an error
(transport fault on a respond call, or an uncaught `KeyError`/
`TypeError` on a malformed challenge object), or the final status, last
request URL, final body and next stream index. -/
def chLoop (stream : Nat → HResp) :
    Nat → Nat → Nat → String → JVal → List String →
    Option (Except ClientErr (Nat × String × JVal × Nat) × List String)
  | 0, _, _, _, _, _ => none
  | fuel + 1, i, status, lastUrl, body, tr =>
    match body.lookup "challenge" with
    | none => some (.ok (status, lastUrl, body, i), tr)
    | some c =>
      match c.lookup "remaining_attempts" with
      | some (.jnum n) =>
        if n > 0 then
          match c.lookup "id" with
          | some (.jstr cid) =>
            let url := urlJoin (urlJoin CHALLENGE cid) "respond/"
            (match stream i with
             | .fault => some (.error (.requestError "POST" url), tr ++ [url])
             | .ok s b => chLoop stream fuel (i + 1) s url b (tr ++ [url]))
          | _ => some (.error .pyErr, tr)
        else some (.ok (status, lastUrl, body, i), tr)
      | _ => some (.error .pyErr, tr)

/-- `login`: `@check_session`; POST the password grant, run the
challenge loop, then branch on the last response: non-200 status raises
`ClientAPIError` with the last request's method/URL/status/body;
a body with an `"id"` field retries the whole login with the challenge
id; a truthy `mfa_required` prompts for a code and retries; otherwise
the tokens are stored (access first — so a 200 body with `access_token`
but no `refresh_token` leaves the new access token behind when the
`KeyError` escapes) and one follow-up `get_account` populates
`account_url`/`account_number`, its failures propagating unmodified.
`fuel` bounds the recursion depth; `none` means it was exhausted. -/
def loginAux (stream : Nat → HResp) :
    Nat → ClientState → Nat →
    Option (Except ClientErr Unit × ClientState × List String)
  | 0, _, _ => none
  | fuel + 1, st, i =>
    if ¬ st.sessionOpen then some (.error .uninitialized, st, []) else
    match stream i with
    | .fault => some (.error (.requestError "POST" LOGIN), st, [LOGIN])
    | .ok s0 b0 =>
      match chLoop stream fuel (i + 1) s0 LOGIN b0 [LOGIN] with
      | none => none
      | some (.error e, tr) => some (.error e, st, tr)
      | some (.ok (status, lastUrl, body, i1), tr) =>
        if status ≠ 200 then
          some (.error (.apiError "POST" lastUrl status body), st, tr)
        else if (body.lookup "id").isSome then
          match loginAux stream fuel st i1 with
          | none => none
          | some (out, st1, tr1) => some (out, st1, tr ++ tr1)
        else if (body.lookup "mfa_required").elim false JVal.truthy then
          match body.lookup "mfa_type" with
          | none => some (.error .pyErr, st, tr)
          | some _ =>
            match loginAux stream fuel st i1 with
            | none => none
            | some (out, st1, tr1) => some (out, st1, tr ++ tr1)
        else
          match body.lookup "access_token" with
          | none => some (.error .pyErr, st, tr)
          | some a =>
            let st1 := { st with accessToken := some ("Bearer " ++ a.pyStr) }
            match body.lookup "refresh_token" with
            | none => some (.error .pyErr, st1, tr)
            | some r =>
              let st2 := { st1 with refreshToken := some r }
              match getAccount st2 (stream i1) with
              | (.error e, st3, gtr) => some (.error e, st3, tr ++ gtr)
              | (.ok acct, st3, gtr) =>
                match acct.lookup "url" with
                | none => some (.error .pyErr, st3, tr ++ gtr)
                | some u =>
                  let st4 := { st3 with accountUrl := some u }
                  match acct.lookup "account_number" with
                  | none => some (.error .pyErr, st4, tr ++ gtr)
                  | some num =>
                    some (.ok (), { st4 with accountNum := some num }, tr ++ gtr)

/-! ## Well-formed page chains, for stating the pagination contract -/

/-- A server serving the pages `chain` in order: page `k` answers with
status 200, its `results`, and a `next` link (named by `f`) to the
following page, `null` on the last page. -/
def chainResps (f : Nat → String) : Nat → List (List JVal) → List HResp
  | _, [] => []
  | i, r :: rest =>
    .ok 200 (.jobj [("results", .jarr r),
      ("next", if rest.isEmpty then .jnull else .jstr (f (i + 1)))]) ::
    chainResps f (i + 1) rest

/-- The successive bodies the challenge loop examines: the initial
grant-response body, then the body of each respond-call response. -/
def bodyChain (stream : Nat → HResp) (b0 : JVal) (i : Nat) : Nat → JVal
  | 0 => b0
  | k + 1 =>
    match stream (i + k) with
    | .ok _ b => b
    | .fault => .jnull

/-! ## Helper lemmas -/

lemma tokensMissing_some (st : ClientState) (a : String) (r : JVal)
    (ha : st.accessToken = some a) (hr : st.refreshToken = some r) :
    tokensMissing st = false := by
  simp [tokensMissing, ha, hr]

lemma tokensMissing_of_absent (st : ClientState)
    (h : st.accessToken = none ∨ st.refreshToken = none) :
    tokensMissing st = true := by
  rcases h with h | h <;> simp [tokensMissing, h]

/-- `get_account` never mutates the client state. -/
lemma getAccount_state (st : ClientState) (resp : HResp) :
    (getAccount st resp).2.1 = st := by
  unfold getAccount
  repeat' split
  all_goals rfl

/-- C6: on a logged-in, initialized client, `logout` clears both tokens
on a 200 revocation response, and leaves both tokens (indeed the whole
state) unchanged when the request fails with a non-200 status
(`ClientAPIError`) or a transport fault (`ClientRequestError`). -/
theorem logout_outcomes (st : ClientState) (a : String) (r : JVal)
    (ha : st.accessToken = some a) (hr : st.refreshToken = some r)
    (hs : st.sessionOpen = true) :
    (∀ body, logout st (.ok 200 body) =
      (.ok (), { st with accessToken := none, refreshToken := none }, [LOGOUT])) ∧
    (∀ status body, status ≠ 200 → logout st (.ok status body) =
      (.error (.apiError "POST" LOGOUT status body), st, [LOGOUT])) ∧
    logout st .fault = (.error (.requestError "POST" LOGOUT), st, [LOGOUT]) := by
  have hm := tokensMissing_some st a r ha hr
  refine ⟨fun body => ?_, fun status body h => ?_, ?_⟩
  · simp [logout, hm, hs]
  · simp [logout, hm, hs, h]
  · simp [logout, hm, hs]

theorem logout_outcomes_witness :
    (⟨true, some "Bearer a", some (.jstr "r"), none, none, "d"⟩ : ClientState).accessToken
        = some "Bearer a" ∧
    logout ⟨true, some "Bearer a", some (.jstr "r"), none, none, "d"⟩ (.ok 200 (.jobj [])) =
      (.ok (), ⟨true, none, none, none, none, "d"⟩, [LOGOUT]) :=
  ⟨rfl, (logout_outcomes _ "Bearer a" (.jstr "r") rfl rfl rfl).1 (.jobj [])⟩

/-- C7: a successful `refresh` replaces both tokens with the values
taken from the server response while leaving `account_url`,
`account_number`, `device_token` and the session handle unchanged; a
failed refresh (`ClientAPIError` on a non-200 status, or
`ClientRequestError` on a transport fault) leaves the tokens at their
pre-call values. -/
theorem refresh_frame (st : ClientState) (a0 : String) (r0 : JVal) (a r body : JVal)
    (ha : st.accessToken = some a0) (hr : st.refreshToken = some r0)
    (hs : st.sessionOpen = true)
    (hba : body.lookup "access_token" = some a)
    (hbr : body.lookup "refresh_token" = some r) :
    refresh st (.ok 200 body) =
      (.ok (), { st with
        accessToken := some ("Bearer " ++ a.pyStr),
        refreshToken := some r }, [LOGIN]) ∧
    (∀ status b, status ≠ 200 → refresh st (.ok status b) =
      (.error (.apiError "POST" LOGIN status b), st, [LOGIN])) ∧
    refresh st .fault = (.error (.requestError "POST" LOGIN), st, [LOGIN]) := by
  have hm := tokensMissing_some st a0 r0 ha hr
  refine ⟨?_, fun status b h => ?_, ?_⟩
  · simp [refresh, hm, hs, hba, hbr]
  · simp [refresh, hm, hs, h]
  · simp [refresh, hm, hs]

theorem refresh_frame_witness :
    ((.jobj [("access_token", .jstr "a2"), ("refresh_token", .jstr "r2")]) : JVal).lookup
        "access_token" = some (.jstr "a2") ∧
    refresh ⟨true, some "Bearer a1", some (.jstr "r1"), some (.jstr "u"), some (.jstr "n"), "d"⟩
        (.ok 200 (.jobj [("access_token", .jstr "a2"), ("refresh_token", .jstr "r2")])) =
      (.ok (), ⟨true, some "Bearer a2", some (.jstr "r2"), some (.jstr "u"), some (.jstr "n"), "d"⟩,
        [LOGIN]) :=
  ⟨rfl,
    (refresh_frame ⟨true, some "Bearer a1", some (.jstr "r1"), some (.jstr "u"), some (.jstr "n"), "d"⟩
      "Bearer a1" (.jstr "r1") (.jstr "a2") (.jstr "r2")
      (.jobj [("access_token", .jstr "a2"), ("refresh_token", .jstr "r2")])
      rfl rfl rfl rfl rfl).1⟩

/-- C10: on a client that is simultaneously unauthenticated (a token is
`None`) and uninitialized (no open session), every operation carrying
both decorators raises `ClientUnauthenticatedError` — the
`check_tokens` guard (outermost decorator) runs before `check_session`
— and issues no request; and with tokens present but the session
closed, the same operations raise `ClientUninitializedError`, likewise
without network I/O. -/
theorem token_check_precedes_session_check (st st2 : ClientState) (a : String) (r : JVal)
    (htok : st.accessToken = none ∨ st.refreshToken = none)
    (_hses : st.sessionOpen = false)
    (ha2 : st2.accessToken = some a) (hr2 : st2.refreshToken = some r)
    (hs2 : st2.sessionOpen = false) :
    (∀ resp, logout st resp = (.error .unauthenticated, st, [])) ∧
    (∀ resp, refresh st resp = (.error .unauthenticated, st, [])) ∧
    (∀ resp, getAccount st resp = (.error .unauthenticated, st, [])) ∧
    (∀ nz pages resps, getPositions st nz pages resps = (.error .unauthenticated, st, [])) ∧
    (∀ w pages resps, getWatchlist st w pages resps = (.error .unauthenticated, st, [])) ∧
    (∀ ids pages resps, getPopularity st ids pages resps = (.error .unauthenticated, st, [])) ∧
    (∀ ids pages resps, getRatings st ids pages resps = (.error .unauthenticated, st, [])) ∧
    (∀ oid pages resps, getOrders st oid pages resps = (.error .unauthenticated, st, [])) ∧
    (∀ (sym : Option String) (ids : Option (List String)) pages resps,
      (sym.isSome ^^ ids.isSome) = true →
      getInstruments st sym ids pages resps = (.error .unauthenticated, st, [])) ∧
    (∀ resp, logout st2 resp = (.error .uninitialized, st2, [])) ∧
    (∀ resp, refresh st2 resp = (.error .uninitialized, st2, [])) ∧
    (∀ resp, getAccount st2 resp = (.error .uninitialized, st2, [])) := by
  have hm := tokensMissing_of_absent st htok
  have hm2 := tokensMissing_some st2 a r ha2 hr2
  refine ⟨fun resp => ?_, fun resp => ?_, fun resp => ?_, fun nz pages resps => ?_,
    fun w pages resps => ?_, fun ids pages resps => ?_, fun ids pages resps => ?_,
    fun oid pages resps => ?_, fun sym ids pages resps hx => ?_,
    fun resp => ?_, fun resp => ?_, fun resp => ?_⟩
  case refine_9 => simp [getInstruments, hm, hx]
  all_goals
    simp [logout, refresh, getAccount, getPositions, getWatchlist, getPopularity,
      getRatings, getOrders, hm, hm2, hs2]

theorem token_check_precedes_session_check_witness :
    ((⟨false, none, none, none, none, "d"⟩ : ClientState).accessToken = none ∨
      (⟨false, none, none, none, none, "d"⟩ : ClientState).refreshToken = none) ∧
    logout ⟨false, none, none, none, none, "d"⟩ .fault =
      (.error .unauthenticated, ⟨false, none, none, none, none, "d"⟩, []) ∧
    logout ⟨false, some "Bearer a", some (.jstr "r"), none, none, "d"⟩ .fault =
      (.error .uninitialized, ⟨false, some "Bearer a", some (.jstr "r"), none, none, "d"⟩, []) := by
  have h := token_check_precedes_session_check
    ⟨false, none, none, none, none, "d"⟩
    ⟨false, some "Bearer a", some (.jstr "r"), none, none, "d"⟩
    "Bearer a" (.jstr "r") (Or.inl rfl) rfl rfl rfl rfl
  exact ⟨Or.inl rfl, h.1 .fault, h.2.2.2.2.2.2.2.2.2.1 .fault⟩

/-- C4: when the password-grant response has status 200 and carries
`access_token`/`refresh_token` with no challenge object, no `id` field
and no `mfa_required` marker, `login` stores `Bearer <access_token>`,
stores the refresh token verbatim, and issues exactly one follow-up
`get_account` request before returning (trace `[LOGIN, ACCOUNTS]`); on a
well-formed account response the account URL and number are populated,
and a failing follow-up (transport fault or non-200) propagates
unmodified with the tokens already in place. -/
theorem login_direct_success (stream : Nat → HResp) (st : ClientState)
    (gb : JVal) (a r : JVal) (fuel : Nat)
    (hs : st.sessionOpen = true)
    (h0 : stream 0 = .ok 200 gb)
    (hch : gb.lookup "challenge" = none)
    (hid : gb.lookup "id" = none)
    (hmfa : gb.lookup "mfa_required" = none)
    (hat : gb.lookup "access_token" = some a)
    (hrt : gb.lookup "refresh_token" = some r) :
    (∀ ab acct arest u num, stream 1 = .ok 200 ab →
      ab.lookup "results" = some (.jarr (acct :: arest)) →
      acct.lookup "url" = some u → acct.lookup "account_number" = some num →
      loginAux stream (fuel + 2) st 0 =
        some (.ok (), { st with
          accessToken := some ("Bearer " ++ a.pyStr),
          refreshToken := some r, accountUrl := some u, accountNum := some num },
          [LOGIN, ACCOUNTS])) ∧
    (stream 1 = .fault →
      loginAux stream (fuel + 2) st 0 =
        some (.error (.requestError "GET" ACCOUNTS),
          { st with
            accessToken := some ("Bearer " ++ a.pyStr), refreshToken := some r },
          [LOGIN, ACCOUNTS])) ∧
    (∀ s b, stream 1 = .ok s b → s ≠ 200 →
      loginAux stream (fuel + 2) st 0 =
        some (.error (.apiError "GET" ACCOUNTS s b),
          { st with
            accessToken := some ("Bearer " ++ a.pyStr), refreshToken := some r },
          [LOGIN, ACCOUNTS])) := by
  refine ⟨fun ab acct arest u num h1 hres hu hn => ?_, fun h1 => ?_, fun s b h1 hs200 => ?_⟩
  · simp [loginAux, chLoop, hs, h0, h1, hch, hid, hmfa, hat, hrt,
      getAccount, tokensMissing, hres, hu, hn]
  · simp [loginAux, chLoop, hs, h0, h1, hch, hid, hmfa, hat, hrt,
      getAccount, tokensMissing]
  · simp [loginAux, chLoop, hs, h0, h1, hch, hid, hmfa, hat, hrt,
      getAccount, tokensMissing, hs200]

theorem login_direct_success_witness :
    (fun i => if i = 0 then
        HResp.ok 200 (.jobj [("access_token", .jstr "at"), ("refresh_token", .jstr "rt")])
      else if i = 1 then
        HResp.ok 200 (.jobj [("results", .jarr [.jobj
          [("url", .jstr "aurl"), ("account_number", .jstr "A1")]])])
      else HResp.fault) 0 =
      HResp.ok 200 (.jobj [("access_token", .jstr "at"), ("refresh_token", .jstr "rt")]) ∧
    loginAux (fun i => if i = 0 then
        HResp.ok 200 (.jobj [("access_token", .jstr "at"), ("refresh_token", .jstr "rt")])
      else if i = 1 then
        HResp.ok 200 (.jobj [("results", .jarr [.jobj
          [("url", .jstr "aurl"), ("account_number", .jstr "A1")]])])
      else HResp.fault) 3 ⟨true, none, none, none, none, "d"⟩ 0 =
      some (.ok (), ⟨true, some "Bearer at", some (.jstr "rt"),
        some (.jstr "aurl"), some (.jstr "A1"), "d"⟩, [LOGIN, ACCOUNTS]) :=
  ⟨rfl,
    (login_direct_success (fun i => if i = 0 then
        HResp.ok 200 (.jobj [("access_token", .jstr "at"), ("refresh_token", .jstr "rt")])
      else if i = 1 then
        HResp.ok 200 (.jobj [("results", .jarr [.jobj
          [("url", .jstr "aurl"), ("account_number", .jstr "A1")]])])
      else HResp.fault) ⟨true, none, none, none, none, "d"⟩
      (.jobj [("access_token", .jstr "at"), ("refresh_token", .jstr "rt")])
      (.jstr "at") (.jstr "rt") 1 rfl rfl rfl rfl rfl rfl rfl).1
      (.jobj [("results", .jarr [.jobj [("url", .jstr "aurl"), ("account_number", .jstr "A1")]])])
      (.jobj [("url", .jstr "aurl"), ("account_number", .jstr "A1")]) []
      (.jstr "aurl") (.jstr "A1") rfl rfl rfl rfl⟩

/-- C5: when the password grant returns a challenge with positive
`remaining_attempts` and the challenge-respond call answers with
`remaining_attempts = 0` and a non-200 status, `login` raises
`ClientAPIError` carrying the respond call's method, URL, status and
full parsed body, and leaves both tokens unset. -/
theorem login_challenge_exhausted (stream : Nat → HResp) (st : ClientState)
    (b1 c1 b2 c2 : JVal) (s1 s2 : Nat) (n : Int) (cid : String) (fuel : Nat)
    (hs : st.sessionOpen = true)
    (hta : st.accessToken = none) (htr : st.refreshToken = none)
    (h0 : stream 0 = .ok s1 b1)
    (hch1 : b1.lookup "challenge" = some c1)
    (hrem1 : c1.lookup "remaining_attempts" = some (.jnum n))
    (hpos : 0 < n)
    (hid1 : c1.lookup "id" = some (.jstr cid))
    (h1 : stream 1 = .ok s2 b2)
    (hch2 : b2.lookup "challenge" = some c2)
    (hrem2 : c2.lookup "remaining_attempts" = some (.jnum 0))
    (hs200 : s2 ≠ 200) :
    loginAux stream (fuel + 3) st 0 =
      some (.error (.apiError "POST" (urlJoin (urlJoin CHALLENGE cid) "respond/") s2 b2),
        st, [LOGIN, urlJoin (urlJoin CHALLENGE cid) "respond/"]) ∧
    st.accessToken = none ∧ st.refreshToken = none := by
  refine ⟨?_, hta, htr⟩
  simp [loginAux, chLoop, hs, h0, h1, hch1, hrem1, hpos, hid1, hch2, hrem2, hs200]

theorem login_challenge_exhausted_witness :
    (0 : Int) < 1 ∧
    loginAux (fun i => if i = 0 then
        HResp.ok 400 (.jobj [("challenge", .jobj
          [("id", .jstr "cid"), ("remaining_attempts", .jnum 1)])])
      else if i = 1 then
        HResp.ok 400 (.jobj [("challenge", .jobj
          [("id", .jstr "cid"), ("remaining_attempts", .jnum 0)])])
      else HResp.fault) 3 ⟨true, none, none, none, none, "d"⟩ 0 =
      some (.error (.apiError "POST" (urlJoin (urlJoin CHALLENGE "cid") "respond/") 400
          (.jobj [("challenge", .jobj [("id", .jstr "cid"), ("remaining_attempts", .jnum 0)])])),
        ⟨true, none, none, none, none, "d"⟩,
        [LOGIN, urlJoin (urlJoin CHALLENGE "cid") "respond/"]) :=
  ⟨by norm_num,
    (login_challenge_exhausted (fun i => if i = 0 then
        HResp.ok 400 (.jobj [("challenge", .jobj
          [("id", .jstr "cid"), ("remaining_attempts", .jnum 1)])])
      else if i = 1 then
        HResp.ok 400 (.jobj [("challenge", .jobj
          [("id", .jstr "cid"), ("remaining_attempts", .jnum 0)])])
      else HResp.fault) ⟨true, none, none, none, none, "d"⟩
      (.jobj [("challenge", .jobj [("id", .jstr "cid"), ("remaining_attempts", .jnum 1)])])
      (.jobj [("id", .jstr "cid"), ("remaining_attempts", .jnum 1)])
      (.jobj [("challenge", .jobj [("id", .jstr "cid"), ("remaining_attempts", .jnum 0)])])
      (.jobj [("id", .jstr "cid"), ("remaining_attempts", .jnum 0)])
      400 400 1 "cid" 0 rfl rfl rfl rfl rfl rfl (by norm_num) rfl rfl rfl rfl
      (by norm_num)).1⟩

/-! ## Pagination lemmas -/

lemma lookup_results (l : List JVal) (nx : JVal) :
    (JVal.jobj [("results", .jarr l), ("next", nx)]).lookup "results" = some (.jarr l) := rfl

lemma lookup_next (l : List JVal) (nx : JVal) :
    (JVal.jobj [("results", .jarr l), ("next", nx)]).lookup "next" = some nx := rfl

/-- One pagination step whose page supplies a string `next` link: the
loop issues its next request to exactly that server-supplied URL, with
no origin check of any kind. -/
lemma pageLoop_cons_jstr (sn sd : Bool) (u s : String) (l : List JVal)
    (b : Option Nat) (hb : b ≠ some 0) (rest : List HResp) :
    pageLoop sn sd (some u) b
        (.ok 200 (.jobj [("results", .jarr l), ("next", .jstr s)]) :: rest) =
      (match pageLoop sn sd (some s) (decBudget b) rest with
       | (.ok tail, tr) => (.ok (l ++ tail), u :: tr)
       | (.error e, tr) => (.error e, u :: tr)) := by
  match b with
  | none => simp [pageLoop, lookup_results, lookup_next]
  | some 0 => exact absurd rfl hb
  | some (n + 1) => simp [pageLoop, lookup_results, lookup_next]

/-- One pagination step whose page has `next = null`: the loop stops
after this single request. -/
lemma pageLoop_cons_jnull (sn sd : Bool) (u : String) (l : List JVal)
    (b : Option Nat) (hb : b ≠ some 0) (rest : List HResp) :
    pageLoop sn sd (some u) b
        (.ok 200 (.jobj [("results", .jarr l), ("next", .jnull)]) :: rest) =
      (.ok l, [u]) := by
  match b with
  | none => simp [pageLoop, lookup_results, lookup_next]
  | some 0 => exact absurd rfl hb
  | some (n + 1) => simp [pageLoop, lookup_results, lookup_next]

lemma chainResps_single (f : Nat → String) (i : Nat) (p : List JVal) :
    chainResps f i [p] = [.ok 200 (.jobj [("results", .jarr p), ("next", .jnull)])] := by
  simp [chainResps]

lemma chainResps_cons_cons (f : Nat → String) (i : Nat) (p q : List JVal)
    (rest : List (List JVal)) :
    chainResps f i (p :: q :: rest) =
      .ok 200 (.jobj [("results", .jarr p), ("next", .jstr (f (i + 1)))]) ::
        chainResps f (i + 1) (q :: rest) := by
  simp [chainResps]

lemma pageLoop_chain_unbounded (sn sd : Bool) (f : Nat → String) :
    ∀ (chain : List (List JVal)) (p : List JVal) (i : Nat) (u : String),
      (pageLoop sn sd (some u) none (chainResps f i (p :: chain))).1 =
        .ok ((p :: chain).flatten) ∧
      (pageLoop sn sd (some u) none (chainResps f i (p :: chain))).2.length =
        chain.length + 1 := by
  intro chain
  induction chain with
  | nil =>
    intro p i u
    rw [chainResps_single, pageLoop_cons_jnull sn sd u p none (by simp)]
    simp
  | cons q rest ih =>
    intro p i u
    obtain ⟨h1, h2⟩ := ih q (i + 1) (f (i + 1))
    rcases hpl : pageLoop sn sd (some (f (i + 1))) none (chainResps f (i + 1) (q :: rest))
      with ⟨o, tr⟩
    rw [hpl] at h1 h2
    simp only at h1 h2
    subst h1
    rw [chainResps_cons_cons, pageLoop_cons_jstr sn sd u (f (i + 1)) p none (by simp)]
    simp [decBudget, hpl, h2]

lemma pageLoop_chain_bounded (sn sd : Bool) (f : Nat → String) :
    ∀ (chain : List (List JVal)) (n : Nat) (p : List JVal) (i : Nat) (u : String),
      (pageLoop sn sd (some u) (some (n + 1)) (chainResps f i (p :: chain))).1 =
        .ok (((p :: chain).take (n + 1)).flatten) ∧
      (pageLoop sn sd (some u) (some (n + 1)) (chainResps f i (p :: chain))).2.length =
        min (n + 1) (chain.length + 1) := by
  intro chain
  induction chain with
  | nil =>
    intro n p i u
    rw [chainResps_single, pageLoop_cons_jnull sn sd u p (some (n + 1)) (by simp)]
    simp
  | cons q rest ih =>
    intro n p i u
    rw [chainResps_cons_cons,
      pageLoop_cons_jstr sn sd u (f (i + 1)) p (some (n + 1)) (by simp)]
    match n with
    | 0 =>
      have hz : pageLoop sn sd (some (f (i + 1))) (some 0)
          (chainResps f (i + 1) (q :: rest)) = (.ok [], []) := by
        simp [pageLoop]
      simp [decBudget, hz]
    | n + 1 =>
      obtain ⟨h1, h2⟩ := ih n q (i + 1) (f (i + 1))
      rcases hpl : pageLoop sn sd (some (f (i + 1))) (some (n + 1))
          (chainResps f (i + 1) (q :: rest))
        with ⟨o, tr⟩
      rw [hpl] at h1 h2
      simp only at h1 h2
      subst h1
      have hd : decBudget (some (n + 1 + 1)) = some (n + 1) := rfl
      rw [hd, hpl]
      refine ⟨by simp, ?_⟩
      simp [h2]
      omega

/-- C1 (amended): for every sequence of server pages, the pagination
loop used by `get_positions`, `get_instruments`, `get_popularity`,
`get_ratings` and `get_orders` returns the concatenation of the pages'
`results` in response order; with a bound `pages = n` exactly
`min n (number of pages)` requests are issued, with `pages = None` one
request per page until `next` is null, and `pages = 0` issues no
request and returns `[]`.  Each of those endpoints delegates to this
loop; `get_watchlist` runs the same loop but returns the `instrument`
field of each element of the concatenation rather than the
concatenation itself. -/
theorem pagination_contract (sn sd : Bool) (f : Nat → String) (i : Nat) (u : String)
    (p : List JVal) (chain : List (List JVal)) (n : Nat)
    (st : ClientState) (a : String) (r : JVal) (nz : Bool) (w sym : String)
    (ids : List String) (oid : Option String)
    (pages : Option Nat) (resps : List HResp)
    (ha : st.accessToken = some a) (hr : st.refreshToken = some r)
    (hs : st.sessionOpen = true) :
    (pageLoop sn sd (some u) none (chainResps f i (p :: chain))).1 =
      .ok ((p :: chain).flatten) ∧
    (pageLoop sn sd (some u) none (chainResps f i (p :: chain))).2.length =
      chain.length + 1 ∧
    (pageLoop sn sd (some u) (some n) (chainResps f i (p :: chain))).1 =
      .ok (((p :: chain).take n).flatten) ∧
    (pageLoop sn sd (some u) (some n) (chainResps f i (p :: chain))).2.length =
      min n (chain.length + 1) ∧
    pageLoop sn sd (some u) (some 0) resps = (.ok [], []) ∧
    getPositions st nz pages resps =
      ((pageLoop true false (some (withQuery POSITIONS
          ("nonzero=" ++ (if nz then "true" else "false")))) pages resps).1, st,
        (pageLoop true false (some (withQuery POSITIONS
          ("nonzero=" ++ (if nz then "true" else "false")))) pages resps).2) ∧
    getInstruments st (some sym) none pages resps =
      ((pageLoop true false (some (withQuery INSTRUMENTS ("symbol=" ++ sym)))
          pages resps).1, st,
        (pageLoop true false (some (withQuery INSTRUMENTS ("symbol=" ++ sym)))
          pages resps).2) ∧
    getPopularity st ids pages resps =
      ((pageLoop true false (some (withQuery POPULARITY
          ("ids=" ++ String.intercalate "," ids))) pages resps).1, st,
        (pageLoop true false (some (withQuery POPULARITY
          ("ids=" ++ String.intercalate "," ids))) pages resps).2) ∧
    getRatings st ids pages resps =
      ((pageLoop false false (some (withQuery RATINGS
          ("ids=" ++ String.intercalate "," ids))) pages resps).1, st,
        (pageLoop false false (some (withQuery RATINGS
          ("ids=" ++ String.intercalate "," ids))) pages resps).2) ∧
    getOrders st oid pages resps =
      ((pageLoop false true (some (match oid with
          | none => ORDERS
          | some o => urlJoin ORDERS (o ++ "/"))) pages resps).1, st,
        (pageLoop false true (some (match oid with
          | none => ORDERS
          | some o => urlJoin ORDERS (o ++ "/"))) pages resps).2) ∧
    (getWatchlist st w none (chainResps f i (p :: chain))).1 =
      (match ((p :: chain).flatten).mapM (fun x => x.lookup "instrument") with
       | some instrs => Except.ok instrs
       | none => Except.error ClientErr.pyErr) := by
  have hm := tokensMissing_some st a r ha hr
  obtain ⟨hu1, hu2⟩ := pageLoop_chain_unbounded sn sd f chain p i u
  refine ⟨hu1, hu2, ?_, ?_, ?_, ?_, ?_, ?_, ?_, ?_, ?_⟩
  · match n with
    | 0 => simp [pageLoop]
    | n + 1 => exact (pageLoop_chain_bounded sn sd f chain n p i u).1
  · match n with
    | 0 => simp [pageLoop]
    | n + 1 => exact (pageLoop_chain_bounded sn sd f chain n p i u).2
  · simp [pageLoop]
  · simp [getPositions, hm, hs]
  · simp [getInstruments, hm, hs]
  · simp [getPopularity, hm, hs]
  · simp [getRatings, hm, hs]
  · simp [getOrders, hm, hs]
  · obtain ⟨hw1, hw2⟩ := pageLoop_chain_unbounded true false f chain p i
      (urlJoin WATCHLISTS (w ++ "/"))
    rcases hpl : pageLoop true false (some (urlJoin WATCHLISTS (w ++ "/"))) none
        (chainResps f i (p :: chain)) with ⟨o, tr⟩
    rw [hpl] at hw1
    simp only at hw1
    subst hw1
    simp [getWatchlist, hm, hs, hpl]
    cases List.mapM.loop (fun x => JVal.lookup x "instrument") (p ++ chain.flatten) [] <;> rfl

/-- C1 counterexample: `get_watchlist` does not return the
concatenation of the pages' `results`: on a single page whose
`results` is `[{"instrument": "u1"}]`, the loop's concatenation is that
object list, while `get_watchlist` returns `["u1"]`. -/
theorem watchlist_projection_cex :
    getWatchlist ⟨true, some "t", some (.jstr "r"), none, none, "d"⟩ "Default" none
        [.ok 200 (.jobj [("results", .jarr [.jobj [("instrument", .jstr "u1")]]),
          ("next", .jnull)])] =
      (.ok [.jstr "u1"], ⟨true, some "t", some (.jstr "r"), none, none, "d"⟩,
        [urlJoin WATCHLISTS "Default/"]) ∧
    (pageLoop true false (some (urlJoin WATCHLISTS "Default/")) none
        [.ok 200 (.jobj [("results", .jarr [.jobj [("instrument", .jstr "u1")]]),
          ("next", .jnull)])]).1 =
      .ok [.jobj [("instrument", .jstr "u1")]] ∧
    ([JVal.jstr "u1"] ≠ [JVal.jobj [("instrument", JVal.jstr "u1")]]) := by
  refine ⟨rfl, rfl, by simp⟩

theorem pagination_contract_witness :
    ((⟨true, some "t", some (.jstr "r"), none, none, "d"⟩ : ClientState).accessToken
        = some "t") ∧
    (pageLoop true false (some "u0") none
        (chainResps (fun k => "p" ++ toString k) 0 [[.jnum 1, .jnum 2], [.jnum 3]])).1 =
      .ok [.jnum 1, .jnum 2, .jnum 3] ∧
    (pageLoop true false (some "u0") (some 1)
        (chainResps (fun k => "p" ++ toString k) 0 [[.jnum 1, .jnum 2], [.jnum 3]])).2.length =
      1 := by
  have h := pagination_contract true false (fun k => "p" ++ toString k) 0 "u0"
    [.jnum 1, .jnum 2] [[.jnum 3]] 1
    ⟨true, some "t", some (.jstr "r"), none, none, "d"⟩ "t" (.jstr "r")
    true "Default" "AAPL" [] none none [] rfl rfl rfl
  refine ⟨rfl, by simpa using h.1, by simpa using h.2.2.2.1⟩

/-- Appending to a URL keeps it under the API origin. -/
lemma isApiUrl_append (u v : String) (h : isApiUrl u = true) :
    isApiUrl (u ++ v) = true := by
  unfold isApiUrl at h ⊢
  rw [String.data_append, List.isPrefixOf_iff_prefix]
  rw [List.isPrefixOf_iff_prefix] at h
  exact h.trans (List.prefix_append _ _)

set_option maxRecDepth 10000 in
/-- C2 (amended): every URL the client itself builds lies under the
fixed API origin — all the urls.py constants do, and appending a query
string keeps a URL there — but the request pipeline has no origin check
at all: a pagination step whose page carries a server-controlled string
`next` link issues its following request to exactly that URL, whatever
its origin, and no InvalidArgument-style failure exists on that path. -/
theorem origin_urls_no_filter :
    (isApiUrl OAUTH = true ∧ isApiUrl LOGIN = true ∧ isApiUrl LOGOUT = true ∧
      isApiUrl CHALLENGE = true ∧ isApiUrl ACCOUNTS = true ∧ isApiUrl PORTFOLIOS = true ∧
      isApiUrl POSITIONS = true ∧ isApiUrl WATCHLISTS = true ∧ isApiUrl FUNDAMENTALS = true ∧
      isApiUrl INSTRUMENTS = true ∧ isApiUrl POPULARITY = true ∧ isApiUrl QUOTES = true ∧
      isApiUrl HISTORICALS = true ∧ isApiUrl RATINGS = true ∧ isApiUrl TAGS = true ∧
      isApiUrl ORDERS = true) ∧
    (∀ u q, isApiUrl u = true → isApiUrl (withQuery u q) = true) ∧
    (∀ (sn sd : Bool) (u s : String) (l : List JVal) (b : Option Nat) (rest : List HResp),
      b ≠ some 0 →
      pageLoop sn sd (some u) b
          (.ok 200 (.jobj [("results", .jarr l), ("next", .jstr s)]) :: rest) =
        (match pageLoop sn sd (some s) (decBudget b) rest with
         | (.ok tail, tr) => (.ok (l ++ tail), u :: tr)
         | (.error e, tr) => (.error e, u :: tr))) := by
  refine ⟨⟨?_, ?_, ?_, ?_, ?_, ?_, ?_, ?_, ?_, ?_, ?_, ?_, ?_, ?_, ?_, ?_⟩, ?_, ?_⟩
  · decide
  · decide
  · decide
  · decide
  · decide
  · decide
  · decide
  · decide
  · decide
  · decide
  · decide
  · decide
  · decide
  · decide
  · decide
  · decide
  · intro u q h
    unfold withQuery
    exact isApiUrl_append _ _ (isApiUrl_append _ _ h)
  · intro sn sd u s l b rest hb
    exact pageLoop_cons_jstr sn sd u s l b hb rest

set_option maxRecDepth 10000 in
/-- C2 counterexample: a pagination step following a server-supplied
`next` URL outside the fixed origin does not fail with an
invalid-argument condition before I/O — the loop issues a GET to the
off-origin URL (it appears in the request trace) and returns its
results. -/
theorem offorigin_request_cex :
    isApiUrl "https://evil.com/p2" = false ∧
    pageLoop true false (some (withQuery POSITIONS "nonzero=true")) none
        [.ok 200 (.jobj [("results", .jarr [.jnum 1]), ("next", .jstr "https://evil.com/p2")]),
         .ok 200 (.jobj [("results", .jarr [.jnum 2]), ("next", .jnull)])] =
      (.ok [.jnum 1, .jnum 2],
        [withQuery POSITIONS "nonzero=true", "https://evil.com/p2"]) := by
  exact ⟨by decide, rfl⟩

theorem origin_urls_no_filter_witness :
    isApiUrl LOGIN = true ∧
    isApiUrl (withQuery POSITIONS "nonzero=true") = true ∧
    pageLoop true false (some "a") none
        [.ok 200 (.jobj [("results", .jarr []), ("next", .jstr "b")])] =
      (match pageLoop true false (some "b") (decBudget none) [] with
       | (.ok tail, tr) => (.ok ([] ++ tail), "a" :: tr)
       | (.error e, tr) => (.error e, "a" :: tr)) :=
  ⟨origin_urls_no_filter.1.2.1,
    origin_urls_no_filter.2.1 POSITIONS "nonzero=true" origin_urls_no_filter.1.2.2.2.2.2.2.1,
    origin_urls_no_filter.2.2 true false "a" "b" [] none [] (by simp)⟩

/-- C8: `dump` on a logged-in client succeeds, does not change the
client, and rewrites only the token fields of the session file, keeping
the device token already stored there; a subsequent `load` against that
file (from any client state with an open session, against a server that
answers the `get_account` call) restores `access_token` and
`refresh_token` to exactly their values at `dump` time. -/
theorem dump_load_roundtrip (st st1 : ClientState) (f : SessionFile)
    (a : String) (r : JVal) (ab acct : JVal) (arest : List JVal) (u num : JVal)
    (ha : st.accessToken = some a) (hr : st.refreshToken = some r)
    (hs1 : st1.sessionOpen = true)
    (hres : ab.lookup "results" = some (.jarr (acct :: arest)))
    (hu : acct.lookup "url" = some u)
    (hn : acct.lookup "account_number" = some num) :
    (dump st f).1 = .ok () ∧
    (dump st f).2.1 = st ∧
    (dump st f).2.2.deviceToken = f.deviceToken ∧
    load st1 (dump st f).2.2 (.ok 200 ab) =
      (.ok (), { st1 with
        accessToken := some a, refreshToken := some r,
        accountUrl := some u, accountNum := some num }, [ACCOUNTS]) := by
  have hm := tokensMissing_some st a r ha hr
  refine ⟨by simp [dump, hm], by simp [dump, hm], by simp [dump, hm], ?_⟩
  simp [dump, load, getAccount, tokensMissing, hm, ha, hr, hs1, hres, hu, hn]

theorem dump_load_roundtrip_witness :
    ((⟨true, some "Bearer a", some (.jstr "r"), none, none, "d"⟩ : ClientState).accessToken =
      some "Bearer a") ∧
    load ⟨true, none, none, none, none, "d"⟩
        (dump ⟨true, some "Bearer a", some (.jstr "r"), none, none, "d"⟩ ⟨"dev", none, none⟩).2.2
        (.ok 200 (.jobj [("results", .jarr [.jobj
          [("url", .jstr "aurl"), ("account_number", .jstr "A1")]])])) =
      (.ok (), ⟨true, some "Bearer a", some (.jstr "r"),
        some (.jstr "aurl"), some (.jstr "A1"), "d"⟩, [ACCOUNTS]) :=
  ⟨rfl,
    (dump_load_roundtrip ⟨true, some "Bearer a", some (.jstr "r"), none, none, "d"⟩
      ⟨true, none, none, none, none, "d"⟩ ⟨"dev", none, none⟩
      "Bearer a" (.jstr "r")
      (.jobj [("results", .jarr [.jobj [("url", .jstr "aurl"), ("account_number", .jstr "A1")]])])
      (.jobj [("url", .jstr "aurl"), ("account_number", .jstr "A1")]) []
      (.jstr "aurl") (.jstr "A1") rfl rfl rfl rfl rfl rfl).2.2.2⟩

/-! ## Challenge-loop termination -/

lemma bodyChain_shift (stream : Nat → HResp) (b0 b1 : JVal) (s i : Nat)
    (h : stream i = .ok s b1) :
    ∀ k, bodyChain stream b0 i (k + 1) = bodyChain stream b1 (i + 1) k := by
  intro k
  cases k with
  | zero => simp [bodyChain, h]
  | succ k =>
    have hik : i + (k + 1) = i + 1 + k := by omega
    simp only [bodyChain, hik]

set_option maxRecDepth 10000 in
/-- If each successive challenge body strictly decreases a non-negative
`remaining_attempts` (or drops the challenge), the loop exits within
`bound` respond calls: with more than `bound` fuel it never hits the
fuel limit, and the trace grows by at most `bound` URLs. -/
lemma chLoop_terminates (stream : Nat → HResp) :
    ∀ (bound fuel i status : Nat) (lastUrl : String) (b : JVal) (tr : List String),
      (∀ k n n', remOf (bodyChain stream b i k) = some n → 0 < n →
        remOf (bodyChain stream b i (k + 1)) = some n' → 0 ≤ n' ∧ n' < n) →
      (∀ n, remOf b = some n → n.toNat ≤ bound) →
      bound < fuel →
      ∃ res tr2, chLoop stream fuel i status lastUrl b tr = some (res, tr2) ∧
        tr2.length ≤ tr.length + bound := by
  intro bound
  induction bound with
  | zero =>
    intro fuel i status lastUrl b tr hdec hb hf
    obtain ⟨f, rfl⟩ : ∃ f, fuel = f + 1 := ⟨fuel - 1, by omega⟩
    rcases hch : b.lookup "challenge" with _ | c
    · exact ⟨.ok (status, lastUrl, b, i), tr, by simp [chLoop, hch], by omega⟩
    · rcases hrem : c.lookup "remaining_attempts" with _ | v
      · exact ⟨.error .pyErr, tr, by simp [chLoop, hch, hrem], by omega⟩
      · cases v with
        | jnum n =>
          by_cases hn : 0 < n
          · have := hb n (by simp [remOf, hch, hrem])
            omega
          · exact ⟨.ok (status, lastUrl, b, i), tr, by simp [chLoop, hch, hrem, hn], by omega⟩
        | jnull => exact ⟨.error .pyErr, tr, by simp [chLoop, hch, hrem], by omega⟩
        | jbool x => exact ⟨.error .pyErr, tr, by simp [chLoop, hch, hrem], by omega⟩
        | jstr x => exact ⟨.error .pyErr, tr, by simp [chLoop, hch, hrem], by omega⟩
        | jarr x => exact ⟨.error .pyErr, tr, by simp [chLoop, hch, hrem], by omega⟩
        | jobj x => exact ⟨.error .pyErr, tr, by simp [chLoop, hch, hrem], by omega⟩
  | succ bound ih =>
    intro fuel i status lastUrl b tr hdec hb hf
    obtain ⟨f, rfl⟩ : ∃ f, fuel = f + 1 := ⟨fuel - 1, by omega⟩
    rcases hch : b.lookup "challenge" with _ | c
    · exact ⟨.ok (status, lastUrl, b, i), tr, by simp [chLoop, hch], by omega⟩
    · rcases hrem : c.lookup "remaining_attempts" with _ | v
      · exact ⟨.error .pyErr, tr, by simp [chLoop, hch, hrem], by omega⟩
      · cases v with
        | jnum n =>
          by_cases hn : 0 < n
          · have hremB : remOf b = some n := by simp [remOf, hch, hrem]
            rcases hid : c.lookup "id" with _ | w
            · exact ⟨.error .pyErr, tr, by simp [chLoop, hch, hrem, hn, hid], by omega⟩
            · cases w with
              | jstr cid =>
                cases hstr : stream i with
                | ok s b1 =>
                  -- the respond call completed; recurse on the new body
                  have hb1 : ∀ n', remOf b1 = some n' → n'.toNat ≤ bound := by
                    intro n' hn'
                    have hchain1 : remOf (bodyChain stream b i 1) = some n' := by
                      simpa [bodyChain, hstr] using hn'
                    have hchain0 : remOf (bodyChain stream b i 0) = some n := by
                      simpa [bodyChain] using hremB
                    have := hdec 0 n n' hchain0 hn hchain1
                    have := hb n hremB
                    omega
                  have hdec1 : ∀ k n n', remOf (bodyChain stream b1 (i + 1) k) = some n →
                      0 < n → remOf (bodyChain stream b1 (i + 1) (k + 1)) = some n' →
                      0 ≤ n' ∧ n' < n := by
                    intro k n2 n2' h1 h2 h3
                    rw [← bodyChain_shift stream b b1 s i hstr k] at h1
                    rw [← bodyChain_shift stream b b1 s i hstr (k + 1)] at h3
                    exact hdec (k + 1) n2 n2' h1 h2 h3
                  obtain ⟨res, tr2, heq, hlen⟩ := ih f (i + 1) s
                    (urlJoin (urlJoin CHALLENGE cid) "respond/") b1
                    (tr ++ [urlJoin (urlJoin CHALLENGE cid) "respond/"])
                    hdec1 hb1 (by omega)
                  refine ⟨res, tr2, ?_, ?_⟩
                  · simpa [chLoop, hch, hrem, hn, hid, hstr] using heq
                  · simp at hlen
                    omega
                | fault =>
                  exact ⟨.error (.requestError "POST" (urlJoin (urlJoin CHALLENGE cid) "respond/")),
                    tr ++ [urlJoin (urlJoin CHALLENGE cid) "respond/"],
                    by simp [chLoop, hch, hrem, hn, hid, hstr], by simp⟩
              | jnull => exact ⟨.error .pyErr, tr, by simp [chLoop, hch, hrem, hn, hid], by omega⟩
              | jbool x => exact ⟨.error .pyErr, tr, by simp [chLoop, hch, hrem, hn, hid], by omega⟩
              | jnum x => exact ⟨.error .pyErr, tr, by simp [chLoop, hch, hrem, hn, hid], by omega⟩
              | jarr x => exact ⟨.error .pyErr, tr, by simp [chLoop, hch, hrem, hn, hid], by omega⟩
              | jobj x => exact ⟨.error .pyErr, tr, by simp [chLoop, hch, hrem, hn, hid], by omega⟩
          · exact ⟨.ok (status, lastUrl, b, i), tr, by simp [chLoop, hch, hrem, hn], by omega⟩
        | jnull => exact ⟨.error .pyErr, tr, by simp [chLoop, hch, hrem], by omega⟩
        | jbool x => exact ⟨.error .pyErr, tr, by simp [chLoop, hch, hrem], by omega⟩
        | jstr x => exact ⟨.error .pyErr, tr, by simp [chLoop, hch, hrem], by omega⟩
        | jarr x => exact ⟨.error .pyErr, tr, by simp [chLoop, hch, hrem], by omega⟩
        | jobj x => exact ⟨.error .pyErr, tr, by simp [chLoop, hch, hrem], by omega⟩

/-- A server whose every respond response repeats
`remaining_attempts = 1` keeps the loop's guard true forever. -/
def constChallengeBody : JVal :=
  .jobj [("challenge", .jobj [("id", .jstr "x"), ("remaining_attempts", .jnum 1)])]

/-- Against the constant non-decreasing server the loop exhausts any
amount of fuel: it has no iteration cap of its own. -/
lemma chLoop_const_no_cap :
    ∀ (fuel i status : Nat) (lastUrl : String) (tr : List String),
      chLoop (fun _ => .ok 400 constChallengeBody) fuel i status lastUrl
        constChallengeBody tr = none := by
  intro fuel
  induction fuel with
  | zero => intro i status lastUrl tr; rfl
  | succ fuel ih =>
    intro i status lastUrl tr
    simpa [chLoop, constChallengeBody, JVal.lookup, jfind] using ih (i + 1) 400 _ _

/-- C9: for every server model in which each successive challenge body
either strictly decreases a non-negative integer `remaining_attempts`
or omits the challenge object, the login challenge loop terminates
after finitely many challenge-respond calls — the request trace grows
by at most the initial `remaining_attempts` value — while the loop has
no iteration cap of its own: a server that keeps answering with
`remaining_attempts = 1` makes it exhaust any amount of fuel, so
termination is conditional on the strictly-decreasing hypothesis. -/
theorem challenge_loop_termination :
    (∀ (stream : Nat → HResp) (bound fuel i status : Nat) (lastUrl : String)
        (b : JVal) (tr : List String),
      (∀ k n n', remOf (bodyChain stream b i k) = some n → 0 < n →
        remOf (bodyChain stream b i (k + 1)) = some n' → 0 ≤ n' ∧ n' < n) →
      (∀ n, remOf b = some n → n.toNat ≤ bound) →
      bound < fuel →
      ∃ res tr2, chLoop stream fuel i status lastUrl b tr = some (res, tr2) ∧
        tr2.length ≤ tr.length + bound) ∧
    (∀ fuel i status lastUrl tr,
      chLoop (fun _ => .ok 400 constChallengeBody) fuel i status lastUrl
        constChallengeBody tr = none) :=
  ⟨fun stream bound => chLoop_terminates stream bound, chLoop_const_no_cap⟩

theorem challenge_loop_termination_witness :
    ∃ res tr2,
      chLoop (fun _ => .ok 200 (.jobj [])) 2 0 400 LOGIN
        (.jobj [("challenge", .jobj [("id", .jstr "x"), ("remaining_attempts", .jnum 1)])])
        [] = some (res, tr2) ∧
      tr2.length ≤ List.length ([] : List String) + 1 := by
  refine challenge_loop_termination.1 (fun _ => .ok 200 (.jobj [])) 1 2 0 400 LOGIN
    (.jobj [("challenge", .jobj [("id", .jstr "x"), ("remaining_attempts", .jnum 1)])])
    [] ?_ ?_ (by omega)
  · intro k n n' h1 h2 h3
    cases k with
    | zero => simp [bodyChain, remOf, JVal.lookup, jfind] at h3
    | succ k => simp [bodyChain, remOf, JVal.lookup, jfind] at h1
  · intro n h
    simp [remOf, JVal.lookup, jfind] at h
    omega

/-! ## Token-invariant preservation -/

lemma logout_inv (st : ClientState) (resp : HResp) (h : invB st = true) :
    invB (logout st resp).2.1 = true := by
  unfold logout
  repeat' split
  all_goals simp_all [invB]

lemma refresh_inv (st : ClientState) (resp : HResp) (h : invB st = true) :
    invB (refresh st resp).2.1 = true := by
  by_cases hm : tokensMissing st = true
  · simp [refresh, hm, h]
  · rw [Bool.not_eq_true] at hm
    rcases ha : st.accessToken with _ | a
    · simp [tokensMissing, ha] at hm
    rcases hrr : st.refreshToken with _ | r
    · simp [tokensMissing, hrr] at hm
    unfold refresh
    rw [hm]
    repeat' split
    all_goals simp_all [invB, ha, hrr]

lemma getPositions_state (st : ClientState) (nz : Bool) (pages : Option Nat)
    (resps : List HResp) : (getPositions st nz pages resps).2.1 = st := by
  unfold getPositions
  repeat' split
  all_goals rfl

lemma getWatchlist_state (st : ClientState) (w : String) (pages : Option Nat)
    (resps : List HResp) : (getWatchlist st w pages resps).2.1 = st := by
  simp only [getWatchlist]
  repeat' split
  all_goals rfl

lemma getInstruments_state (st : ClientState) (sym : Option String)
    (ids : Option (List String)) (pages : Option Nat) (resps : List HResp) :
    (getInstruments st sym ids pages resps).2.1 = st := by
  unfold getInstruments
  repeat' split
  all_goals rfl

lemma getPopularity_state (st : ClientState) (ids : List String) (pages : Option Nat)
    (resps : List HResp) : (getPopularity st ids pages resps).2.1 = st := by
  unfold getPopularity
  repeat' split
  all_goals rfl

lemma getRatings_state (st : ClientState) (ids : List String) (pages : Option Nat)
    (resps : List HResp) : (getRatings st ids pages resps).2.1 = st := by
  unfold getRatings
  repeat' split
  all_goals rfl

lemma getOrders_state (st : ClientState) (oid : Option String) (pages : Option Nat)
    (resps : List HResp) : (getOrders st oid pages resps).2.1 = st := by
  unfold getOrders
  repeat' split
  all_goals rfl

lemma dump_state (st : ClientState) (f : SessionFile) : (dump st f).2.1 = st := by
  unfold dump
  split
  all_goals rfl

lemma dump_fileInv (st : ClientState) (f : SessionFile)
    (h2 : fileInvB f = true) : fileInvB (dump st f).2.2 = true := by
  unfold dump
  split
  · exact h2
  · rename_i hg
    simp [tokensMissing, Bool.or_eq_true] at hg
    rcases ha : st.accessToken with _ | a
    · exact absurd ha hg.1
    rcases hrr : st.refreshToken with _ | r
    · exact absurd hrr hg.2
    simp [fileInvB, ha, hrr]

lemma load_inv (st : ClientState) (f : SessionFile) (resp : HResp)
    (h : fileInvB f = true) : invB (load st f resp).2.1 = true := by
  unfold load
  dsimp only
  rcases hga : getAccount
      { st with accessToken := f.accessToken, refreshToken := f.refreshToken } resp
    with ⟨o, st2, tr⟩
  have hst2 : st2 =
      { st with accessToken := f.accessToken, refreshToken := f.refreshToken } := by
    have h2 := getAccount_state
      { st with accessToken := f.accessToken, refreshToken := f.refreshToken } resp
    rw [hga] at h2
    exact h2
  subst hst2
  cases o with
  | error e => simpa [invB, fileInvB] using h
  | ok acct =>
    dsimp only
    repeat' split
    all_goals simpa [invB, fileInvB] using h

lemma getAccount_eq_state (X : ClientState) (g : HResp) (o : Except ClientErr JVal)
    (s : ClientState) (t : List String) (h : getAccount X g = (o, s, t)) : s = X := by
  have h2 := getAccount_state X g
  rw [h] at h2
  exact h2

/-- Any terminating `login` run that does not end in an uncaught Python
error preserves the both-or-none token invariant. -/
lemma loginAux_inv (stream : Nat → HResp) :
    ∀ (fuel : Nat) (st : ClientState) (i : Nat) (out : Except ClientErr Unit)
      (st1 : ClientState) (tr : List String),
      invB st = true → loginAux stream fuel st i = some (out, st1, tr) →
      out ≠ .error .pyErr → invB st1 = true := by
  intro fuel
  induction fuel with
  | zero =>
    intro st i out st1 tr hinv hrun hout
    simp [loginAux] at hrun
  | succ fuel ih =>
    intro st i out st1 tr hinv hrun hout
    unfold loginAux at hrun
    dsimp only at hrun
    split at hrun
    · -- session not open
      simp only [Option.some.injEq, Prod.mk.injEq] at hrun
      obtain ⟨h1, h2, h3⟩ := hrun
      subst h2
      exact hinv
    · split at hrun
      · -- transport fault on the grant request
        simp only [Option.some.injEq, Prod.mk.injEq] at hrun
        obtain ⟨h1, h2, h3⟩ := hrun
        subst h2
        exact hinv
      · split at hrun
        · -- challenge loop ran out of fuel
          exact Option.noConfusion hrun
        · -- challenge loop exited with an error
          simp only [Option.some.injEq, Prod.mk.injEq] at hrun
          obtain ⟨h1, h2, h3⟩ := hrun
          subst h2
          exact hinv
        · -- challenge loop exited normally
          split at hrun
          · -- non-200 status: ClientAPIError
            simp only [Option.some.injEq, Prod.mk.injEq] at hrun
            obtain ⟨h1, h2, h3⟩ := hrun
            subst h2
            exact hinv
          · split at hrun
            · -- challenge passed ("id" present): recursive retry
              split at hrun
              · exact Option.noConfusion hrun
              · rename_i o1 s1 t1 heq
                simp only [Option.some.injEq, Prod.mk.injEq] at hrun
                obtain ⟨h1, h2, h3⟩ := hrun
                subst h1
                subst h2
                exact ih st _ _ _ _ hinv heq hout
            · split at hrun
              · -- MFA required
                split at hrun
                · -- mfa_type missing: uncaught KeyError
                  simp only [Option.some.injEq, Prod.mk.injEq] at hrun
                  obtain ⟨h1, h2, h3⟩ := hrun
                  subst h1
                  exact absurd rfl hout
                · -- MFA retry: recursion
                  split at hrun
                  · exact Option.noConfusion hrun
                  · rename_i o1 s1 t1 heq
                    simp only [Option.some.injEq, Prod.mk.injEq] at hrun
                    obtain ⟨h1, h2, h3⟩ := hrun
                    subst h1
                    subst h2
                    exact ih st _ _ _ _ hinv heq hout
              · -- token-bearing response
                split at hrun
                · -- access_token missing: uncaught KeyError
                  simp only [Option.some.injEq, Prod.mk.injEq] at hrun
                  obtain ⟨h1, h2, h3⟩ := hrun
                  subst h1
                  exact absurd rfl hout
                · split at hrun
                  · -- refresh_token missing: uncaught KeyError (the access
                    -- token is already overwritten, but the outcome is pyErr)
                    simp only [Option.some.injEq, Prod.mk.injEq] at hrun
                    obtain ⟨h1, h2, h3⟩ := hrun
                    subst h1
                    exact absurd rfl hout
                  · -- both tokens stored; follow-up get_account
                    split at hrun
                    · -- get_account failed
                      rename_i heq
                      have hst3 := getAccount_eq_state _ _ _ _ _ heq
                      simp only [Option.some.injEq, Prod.mk.injEq] at hrun
                      obtain ⟨h1, h2, h3⟩ := hrun
                      subst h2
                      rw [hst3]
                      simp [invB]
                    · -- get_account succeeded
                      rename_i heq
                      have hst3 := getAccount_eq_state _ _ _ _ _ heq
                      subst hst3
                      split at hrun
                      · -- account["url"] missing: pyErr
                        simp only [Option.some.injEq, Prod.mk.injEq] at hrun
                        obtain ⟨h1, h2, h3⟩ := hrun
                        subst h2
                        simp [invB]
                      · split at hrun
                        · -- account_number missing: pyErr
                          simp only [Option.some.injEq, Prod.mk.injEq] at hrun
                          obtain ⟨h1, h2, h3⟩ := hrun
                          subst h2
                          simp [invB]
                        · -- fully successful login
                          simp only [Option.some.injEq, Prod.mk.injEq] at hrun
                          obtain ⟨h1, h2, h3⟩ := hrun
                          subst h2
                          simp [invB]

/-- C3 (amended): the both-or-none token invariant holds in the initial
client state and is preserved by every modelled operation — logout,
refresh, get_account, the list endpoints (which never write the token
fields), dump (also for the invariant of the session file it writes),
load (from a file satisfying the file invariant), and every terminating
login run — on normal and declared-error outcomes alike; the sole
exception is login's uncaught-KeyError outcome when a 200 grant
response carries `access_token` but omits `refresh_token`, which leaves
the new access token without a refresh token.  Every operation guarded
by `check_tokens` raises `ClientUnauthenticatedError` with no network
request when either token is absent (for `get_instruments`, once its
exactly-one-parameter validation passes). -/
theorem token_invariant (d : String) (st : ClientState) (f : SessionFile)
    (resp : HResp) (stream : Nat → HResp) (fuel i : Nat)
    (out : Except ClientErr Unit) (st1 : ClientState) (tr : List String)
    (nz : Bool) (w : String) (ids : List String) (oid : Option String)
    (sym : Option String) (oids : Option (List String))
    (pages : Option Nat) (resps : List HResp) :
    invB (initState d) = true ∧
    (tokensMissing st = true →
      logout st resp = (.error .unauthenticated, st, []) ∧
      refresh st resp = (.error .unauthenticated, st, []) ∧
      getAccount st resp = (.error .unauthenticated, st, []) ∧
      dump st f = (.error .unauthenticated, st, f) ∧
      getPositions st nz pages resps = (.error .unauthenticated, st, []) ∧
      getWatchlist st w pages resps = (.error .unauthenticated, st, []) ∧
      getPopularity st ids pages resps = (.error .unauthenticated, st, []) ∧
      getRatings st ids pages resps = (.error .unauthenticated, st, []) ∧
      getOrders st oid pages resps = (.error .unauthenticated, st, []) ∧
      ((sym.isSome ^^ oids.isSome) = true →
        getInstruments st sym oids pages resps = (.error .unauthenticated, st, []))) ∧
    (invB st = true → invB (logout st resp).2.1 = true) ∧
    (invB st = true → invB (refresh st resp).2.1 = true) ∧
    (getAccount st resp).2.1 = st ∧
    (getPositions st nz pages resps).2.1 = st ∧
    (getWatchlist st w pages resps).2.1 = st ∧
    (getInstruments st sym oids pages resps).2.1 = st ∧
    (getPopularity st ids pages resps).2.1 = st ∧
    (getRatings st ids pages resps).2.1 = st ∧
    (getOrders st oid pages resps).2.1 = st ∧
    (dump st f).2.1 = st ∧
    (fileInvB f = true → fileInvB (dump st f).2.2 = true) ∧
    (fileInvB f = true → invB (load st f resp).2.1 = true) ∧
    (invB st = true → loginAux stream fuel st i = some (out, st1, tr) →
      out ≠ .error .pyErr → invB st1 = true) := by
  refine ⟨rfl, fun hm => ⟨?_, ?_, ?_, ?_, ?_, ?_, ?_, ?_, ?_, fun hx => ?_⟩,
    logout_inv st resp, refresh_inv st resp, getAccount_state st resp,
    getPositions_state st nz pages resps, getWatchlist_state st w pages resps,
    getInstruments_state st sym oids pages resps, getPopularity_state st ids pages resps,
    getRatings_state st ids pages resps, getOrders_state st oid pages resps,
    dump_state st f, dump_fileInv st f, load_inv st f resp,
    loginAux_inv stream fuel st i out st1 tr⟩
  case refine_10 => simp [getInstruments, hm, hx]
  all_goals
    simp [logout, refresh, getAccount, dump, getPositions, getWatchlist,
      getPopularity, getRatings, getOrders, hm]

/-- C3 counterexample: a 200 password-grant response carrying
`access_token` but no `refresh_token` makes `login` assign the access
token and then escape with an uncaught `KeyError`, leaving
`access_token` set and `refresh_token` `None` — one token without the
other. -/
theorem token_invariant_cex :
    loginAux (fun _ => .ok 200 (.jobj [("access_token", .jstr "a")])) 2
        ⟨true, none, none, none, none, "d"⟩ 0 =
      some (.error .pyErr, ⟨true, some "Bearer a", none, none, none, "d"⟩, [LOGIN]) ∧
    invB ⟨true, some "Bearer a", none, none, none, "d"⟩ = false :=
  ⟨rfl, rfl⟩

theorem token_invariant_witness :
    invB (initState "d") = true ∧
    getPositions ⟨true, none, none, none, none, "d"⟩ true none [] =
      (.error .unauthenticated, ⟨true, none, none, none, none, "d"⟩, []) ∧
    invB (refresh ⟨true, some "B", some (.jstr "r"), none, none, "d"⟩ .fault).2.1 = true ∧
    fileInvB (dump ⟨true, some "B", some (.jstr "r"), none, none, "d"⟩
      ⟨"dev", none, none⟩).2.2 = true ∧
    invB (load ⟨true, some "B", some (.jstr "r"), none, none, "d"⟩
      ⟨"dev", none, none⟩ .fault).2.1 = true ∧
    invB (⟨true, some "B", some (.jstr "r"), none, none, "d"⟩ : ClientState) = true := by
  have h0 := token_invariant "d" ⟨true, none, none, none, none, "d"⟩
    ⟨"dev", none, none⟩ .fault (fun _ => .fault) 1 0
    (.error (.requestError "POST" LOGIN)) ⟨true, none, none, none, none, "d"⟩ [LOGIN]
    true "w" [] none none none none []
  have h1 := token_invariant "d" ⟨true, some "B", some (.jstr "r"), none, none, "d"⟩
    ⟨"dev", none, none⟩ .fault (fun _ => .fault) 1 0
    (.error (.requestError "POST" LOGIN))
    ⟨true, some "B", some (.jstr "r"), none, none, "d"⟩ [LOGIN]
    true "w" [] none none none none []
  refine ⟨h0.1, (h0.2.1 rfl).2.2.2.2.1, h1.2.2.2.1 rfl,
    h1.2.2.2.2.2.2.2.2.2.2.2.2.1 rfl,
    h1.2.2.2.2.2.2.2.2.2.2.2.2.2.1 rfl,
    h1.2.2.2.2.2.2.2.2.2.2.2.2.2.2 rfl rfl (by simp)⟩

end Aiorobinhood
